import Mathlib

/-!
Shallow embedding of the schematis XSD abstract syntax tree and its query
layer (src/basics.rs, src/facets.rs, src/particles.rs, src/lib.rs), together
with theorems about the extraction operations.

Renaming notes, forced by Lean's grammar and name clashes:
* Rust's `Annotation` type is rendered as `Annot` (and body variants named
  `Annotation` as `Annot`); fields named `annotation` become `annot`.
* Rust's `List` simple-type node is rendered as `XsdList` (Lean's `List` is
  taken); its body enum `ListBody` becomes `XsdListBody`.
* Rust's `Attribute` body variants keep the name `Attribute`; the Rust field
  `namespace` is rendered `namespace_` (Lean keyword).
* `u32` fields are rendered as `Nat`; the `u32` range bound enters only where
  lexical parsing matters (`parseU32`), with the bound `2 ^ 32` explicit.
All other type, field and constructor names follow the Rust source.
-/

namespace Schematis

/-- `basics.rs`: `pub type AnyURI = String`. -/
abbrev AnyURI := String

/-- `basics.rs`: `pub type ID = String`. -/
abbrev ID := String

/-- `basics.rs`: `pub type NCName = String`. -/
abbrev NCName := String

/-- `basics.rs`: `pub type QName = String`. -/
abbrev QName := String

/-- `basics.rs`: `pub type Token = String`. -/
abbrev XsdToken := String

/-- `lib.rs` `enum Final`. -/
inductive Final where
  | All
  | Extension
  | Restriction
  | List
  | Union
deriving DecidableEq

/-- `lib.rs` `enum FormChoice`. -/
inductive FormChoice where
  | Qualified
  | Unqualified
deriving DecidableEq

/-- `lib.rs` `enum Block`. -/
inductive Block where
  | All
  | Extension
  | Restriction
  | Substitution
deriving DecidableEq

/-- `lib.rs` `enum ProcessContents`. -/
inductive ProcessContents where
  | Lax
  | Strict
  | Skip
deriving DecidableEq

/-- `lib.rs` `enum AttributeUse`. -/
inductive AttributeUse where
  | Optional
  | Prohibited
  | Required
deriving DecidableEq

/-- `lib.rs` `enum OpenContentMode`. -/
inductive OpenContentMode where
  | Interleave
  | Suffix
deriving DecidableEq

/-- `facets.rs` `enum WhiteSpaceValue`. -/
inductive WhiteSpaceValue where
  | Preserve
  | Collapse
  | Replace
deriving DecidableEq

/-- `facets.rs` `enum ExplicitTimezoneValue`. -/
inductive ExplicitTimezoneValue where
  | Optional
  | Required
  | Prohibited
deriving DecidableEq

/-- `particles.rs` `enum MaxOccurs`: serde-`untagged`, first variant
`Bounded(u32)`, second `Unbounded(String)`. -/
inductive MaxOccurs where
  | Bounded (n : Nat)
  | Unbounded (s : String)
deriving DecidableEq

/-- `lib.rs` `struct AppInfo`. -/
structure AppInfo where
  source : Option AnyURI
deriving DecidableEq

/-- `lib.rs` `struct Documentation`. -/
structure Documentation where
  source : Option String
  xml_lang : Option String
  body : List String
deriving DecidableEq

/-- `lib.rs` `enum AnnotationBody` (rendered `AnnotBody`). -/
inductive AnnotBody where
  | AppInfo (e : AppInfo)
  | Documentation (e : Documentation)
deriving DecidableEq

/-- `lib.rs` `struct Annotation` (rendered `Annot`): the Rust field
`namespace` is rendered `namespace_`. -/
structure Annot where
  namespace_ : Option String
  body : List AnnotBody
deriving DecidableEq

/-- `facets.rs` `struct Enumeration`. -/
structure Enumeration where
  id : Option ID
  value : String
  body : Option Annot
deriving DecidableEq

/-- `facets.rs` `struct WhiteSpace`. -/
structure WhiteSpace where
  id : Option ID
  fixed : Option Bool
  value : WhiteSpaceValue
  body : Option Annot
deriving DecidableEq

/-- `facets.rs` `struct Pattern`. -/
structure Pattern where
  id : Option String
  value : String
  body : Option Annot
deriving DecidableEq

/-- `facets.rs` `struct Digits`. -/
structure Digits where
  id : Option ID
  fixed : Option Bool
  value : Nat
  body : Option Annot
deriving DecidableEq

/-- `facets.rs` `struct Length`. -/
structure Length where
  id : Option String
  fixed : Option Bool
  value : Nat
  body : Option Annot
deriving DecidableEq

/-- `facets.rs` `struct BoundaryFacet`. -/
structure BoundaryFacet where
  id : Option String
  fixed : Option Bool
  value : String
  body : Option Annot
deriving DecidableEq

/-- `facets.rs` `struct Assertion`. -/
structure Assertion where
  id : Option String
  test : String
  xpath_default_namespace : Option AnyURI
  body : Option Annot
deriving DecidableEq

/-- `facets.rs` `struct ExplicitTimezone`. -/
structure ExplicitTimezone where
  id : Option String
  fixed : Bool
  value : ExplicitTimezoneValue
  body : Option Annot
deriving DecidableEq

/-- `lib.rs` `struct Assert`: its optional child annotation is a direct
field (Rust field `annotation`, rendered `annot`). -/
structure Assert where
  id : Option ID
  test : Option String
  annot : Option Annot
deriving DecidableEq

/-- `particles.rs` `struct Any`: the wildcard particle; its body is at most
one annotation. -/
structure Any where
  id : Option ID
  namespace_ : Option String
  not_namespace : Option String
  not_q_name : Option String
  process_contents : Option ProcessContents
  min_occurs : Option Nat
  max_occurs : Option MaxOccurs
  body : Option Annot
deriving DecidableEq

/-- `lib.rs` `struct AnyAttribute`: its body is at most one annotation. -/
structure AnyAttribute where
  id : Option ID
  namespace_ : Option String
  not_namespace : Option String
  not_q_name : Option String
  process_contents : Option ProcessContents
  body : Option Annot
deriving DecidableEq

/-- `lib.rs` `struct Selector`. -/
structure Selector where
  id : Option String
  xpath : String
  xpath_default_namespace : Option AnyURI
  body : Option Annot
deriving DecidableEq

/-- `lib.rs` `struct Field`. -/
structure XsdField where
  id : Option ID
  xpath : String
  xpath_default_namespace : Option AnyURI
  body : Option Annot
deriving DecidableEq

/-- `lib.rs` `enum UniqueBody`. -/
inductive UniqueBody where
  | Annot (e : Annot)
  | Selector (e : Selector)
  | Field (e : XsdField)
deriving DecidableEq

/-- `lib.rs` `struct Unique`. -/
structure Unique where
  id : Option ID
  name : NCName
  ref_ : Option QName
  body : List UniqueBody
deriving DecidableEq

/-- `lib.rs` `enum KeyBody`. -/
inductive KeyBody where
  | Annot (e : Annot)
  | Selector (e : Selector)
  | Field (e : XsdField)
deriving DecidableEq

/-- `lib.rs` `struct Key`. -/
structure Key where
  id : Option String
  name : Option String
  body : List KeyBody
deriving DecidableEq

/-- `lib.rs` `enum KeyrefBody`. -/
inductive KeyrefBody where
  | Annot (e : Annot)
  | Selector (e : Selector)
  | Field (e : XsdField)
deriving DecidableEq

/-- `lib.rs` `struct Keyref`. -/
structure Keyref where
  id : Option String
  name : NCName
  refer : QName
  body : List KeyrefBody
deriving DecidableEq

/-- `lib.rs` `struct Notation`. -/
structure Notation where
  id : Option ID
  name : String
  public : String
  system : Option String
deriving DecidableEq

/-- `lib.rs` `struct Include` (Rust field `annotations` rendered `annots`). -/
structure Include where
  id : Option ID
  schema_location : AnyURI
  annots : List Annot
deriving DecidableEq

/-- `lib.rs` `struct Import` (Rust field `annotations` rendered `annots`). -/
structure Import where
  id : Option ID
  namespace_ : Option AnyURI
  schema_location : AnyURI
  annots : List Annot
deriving DecidableEq

/-- `lib.rs` `enum OpenContentBody`. -/
inductive OpenContentBody where
  | Any (e : Any)
  | Annot (e : Annot)
deriving DecidableEq

/-- `lib.rs` `struct OpenContent`. -/
structure OpenContent where
  id : Option ID
  mode : Option OpenContentMode
  body : List OpenContentBody
deriving DecidableEq

/-- `lib.rs` `struct DefaultOpenContent`. -/
structure DefaultOpenContent where
  id : Option ID
  mode : Option OpenContentMode
  applies_to_empty : Option Bool
  body : List OpenContentBody
deriving DecidableEq

/-- `facets.rs` `enum Facet`: the read-only unifying view over a
Restriction's facet children. In Rust each case wraps a reference; here it
holds the value. -/
inductive Facet where
  | Length (e : Length)
  | MinLength (e : Length)
  | MaxLength (e : Length)
  | Pattern (e : Pattern)
  | WhiteSpace (e : WhiteSpace)
  | Enumeration (e : Enumeration)
  | MinInclusive (e : BoundaryFacet)
  | MaxInclusive (e : BoundaryFacet)
  | MinExclusive (e : BoundaryFacet)
  | MaxExclusive (e : BoundaryFacet)
  | TotalDigits (e : Digits)
  | FractionDigits (e : Digits)
  | Assertion (e : Assertion)
  | ExplicitTimezone (e : ExplicitTimezone)
deriving DecidableEq

/-!
The mutually recursive container nodes. Rust structs become single-constructor
inductives (Lean structures cannot be mutually recursive); the `$value` child
list of each container is its `body` field. Constructor argument order and the
order of the body-enum variants follow the Rust source.
-/

set_option maxHeartbeats 3200000 in
mutual

/-- `particles.rs` `struct Sequence`. -/
inductive Sequence where
  | mk (id : Option ID) (min_occurs : Option Nat) (max_occurs : Option MaxOccurs)
      (body : List SequenceBody)

/-- `particles.rs` `enum SequenceBody`. -/
inductive SequenceBody where
  | Any (e : Any)
  | Annot (e : Annot)
  | Element (e : Element)
  | Group (e : Group)
  | Sequence (e : Sequence)
  | Choice (e : Choice)

/-- `particles.rs` `struct All`: note both occurrence attributes are plain
`u32` options (`maxOccurs` is NOT of type `MaxOccurs`). -/
inductive All where
  | mk (id : Option ID) (min_occurs : Option Nat) (max_occurs : Option Nat)
      (body : List AllBody)

/-- `particles.rs` `enum AllBody`. -/
inductive AllBody where
  | Annot (e : Annot)
  | Element (e : Element)
  | Any (e : Any)
  | Group (e : Group)

/-- `particles.rs` `struct Group`. -/
inductive Group where
  | mk (id : Option ID) (name : Option NCName) (ref_ : Option QName)
      (min_occurs : Option Nat) (max_occurs : Option MaxOccurs) (body : List GroupBody)

/-- `particles.rs` `enum GroupBody`. -/
inductive GroupBody where
  | All (e : All)
  | Annot (e : Annot)
  | Assert (e : Assert)
  | Choice (e : Choice)
  | Sequence (e : Sequence)

/-- `particles.rs` `struct Choice`. -/
inductive Choice where
  | mk (id : Option ID) (min_occurs : Option Nat) (max_occurs : Option MaxOccurs)
      (body : List ChoiceBody)

/-- `particles.rs` `enum ChoiceBody`. -/
inductive ChoiceBody where
  | Any (e : Any)
  | Annot (e : Annot)
  | Element (e : Element)
  | Group (e : Group)
  | Choice (e : Choice)
  | Sequence (e : Sequence)

/-- `particles.rs` `struct Element`. -/
inductive Element where
  | mk (id : Option ID) (name : Option NCName) (nillable : Option Bool)
      (default : Option String) (final_ : Option Final) (block : Option (List Block))
      (fixed : Option String) (form : Option FormChoice) (abstract_ : Option Bool)
      (type_ : Option QName) (substitution_group : Option QName)
      (min_occurs : Option Nat) (max_occurs : Option MaxOccurs) (ref_ : Option QName)
      (body : List ElementBody)

/-- `particles.rs` `enum ElementBody`. -/
inductive ElementBody where
  | Annot (e : Annot)
  | SimpleType (e : SimpleType)
  | ComplexType (e : ComplexType)
  | Unique (e : Unique)
  | Key (e : Key)
  | Keyref (e : Keyref)
  | Alternative

/-- `lib.rs` `struct SimpleType`. -/
inductive SimpleType where
  | mk (id : Option ID) (final_ : Option Final) (name : Option NCName)
      (body : List SimpleTypeBody)

/-- `lib.rs` `enum SimpleTypeBody`. -/
inductive SimpleTypeBody where
  | Annot (e : Annot)
  | Restriction (e : Restriction)
  | Union (e : Union)
  | List (e : XsdList)

/-- `lib.rs` `struct Union`. -/
inductive Union where
  | mk (id : Option ID) (member_types : Option (List QName)) (body : List UnionBody)

/-- `lib.rs` `enum UnionBody`. -/
inductive UnionBody where
  | Annot (e : Annot)
  | SimpleType (e : SimpleType)

/-- `lib.rs` `struct List` (rendered `XsdList`). -/
inductive XsdList where
  | mk (id : Option ID) (item_type : Option QName) (body : List XsdListBody)

/-- `lib.rs` `enum ListBody` (rendered `XsdListBody`). -/
inductive XsdListBody where
  | SimpleType (e : SimpleType)
  | Annot (e : Annot)

/-- `lib.rs` `struct Restriction`. -/
inductive Restriction where
  | mk (id : Option ID) (base : Option QName) (body : List RestrictionBody)

/-- `lib.rs` `enum RestrictionBody`. -/
inductive RestrictionBody where
  | Pattern (e : Pattern)
  | Length (e : Length)
  | Annot (e : Annot)
  | WhiteSpace (e : WhiteSpace)
  | SimpleType (e : SimpleType)
  | AnyAttribute (e : AnyAttribute)
  | MinInclusive (e : BoundaryFacet)
  | MaxInclusive (e : BoundaryFacet)
  | MinExclusive (e : BoundaryFacet)
  | MaxExclusive (e : BoundaryFacet)
  | MinLength (e : Length)
  | MaxLength (e : Length)
  | FractionDigits (e : Digits)
  | TotalDigits (e : Digits)
  | Enumeration (e : Enumeration)
  | Sequence (e : Sequence)
  | Attribute (e : Attribute)
  | AttributeGroup (e : AttributeGroup)
  | Group (e : Group)
  | All (e : All)
  | Choice (e : Choice)
  | Assertion (e : Assertion)
  | ExplicitTimezone (e : ExplicitTimezone)
  | Assert (e : Assert)

/-- `lib.rs` `struct Attribute`. -/
inductive Attribute where
  | mk (id : Option ID) (name : Option NCName) (type_ : Option QName)
      (use_ : Option AttributeUse) (ref_ : Option QName) (default : Option String)
      (fixed : Option String) (form : Option FormChoice)
      (target_namespace : Option AnyURI) (inheritable : Option Bool)
      (body : List AttributeBody)

/-- `lib.rs` `enum AttributeBody`. -/
inductive AttributeBody where
  | Annot (e : Annot)
  | SimpleType (e : SimpleType)

/-- `lib.rs` `struct AttributeGroup`. -/
inductive AttributeGroup where
  | mk (id : Option ID) (name : Option NCName) (ref_ : Option QName)
      (body : List AttributeGroupBody)

/-- `lib.rs` `enum AttributeGroupBody`. -/
inductive AttributeGroupBody where
  | Annot (e : Annot)
  | Attribute (e : Attribute)
  | AnyAttribute (e : AnyAttribute)
  | AttributeGroup (e : AttributeGroup)

/-- `lib.rs` `struct ComplexType`. -/
inductive ComplexType where
  | mk (id : Option ID) (name : Option NCName) (mixed : Option Bool)
      (final_ : Option (List Final)) (block : Option (List Block))
      (abstract_ : Option Bool) (type_ : Option String)
      (default_attributes_apply : Option Bool) (body : List ComplexTypeBody)

/-- `lib.rs` `enum ComplexTypeBody`. -/
inductive ComplexTypeBody where
  | Annot (e : Annot)
  | All (e : All)
  | Assert (e : Assert)
  | Sequence (e : Sequence)
  | Attribute (e : Attribute)
  | AttributeGroup (e : AttributeGroup)
  | AnyAttribute (e : AnyAttribute)
  | Group (e : Group)
  | ComplexContent (e : ComplexContent)
  | SimpleContent (e : SimpleContent)
  | OpenContent (e : OpenContent)
  | Choice (e : Choice)

/-- `lib.rs` `struct SimpleContent`. -/
inductive SimpleContent where
  | mk (id : Option ID) (body : List ContentBody)

/-- `lib.rs` `struct ComplexContent`. -/
inductive ComplexContent where
  | mk (id : Option ID) (mixed : Option Bool) (body : List ContentBody)

/-- `lib.rs` `enum ContentBody`. -/
inductive ContentBody where
  | Annot (e : Annot)
  | Restriction (e : Restriction)
  | Extension (e : Extension)

/-- `lib.rs` `struct Extension`. -/
inductive Extension where
  | mk (id : Option String) (base : QName) (body : List ExtensionBody)

/-- `lib.rs` `enum ExtensionBody`. -/
inductive ExtensionBody where
  | All (e : All)
  | Assert (e : Assert)
  | Group (e : Group)
  | Attribute (e : Attribute)
  | AnyAttribute (e : AnyAttribute)
  | AttributeGroup (e : AttributeGroup)
  | Sequence (e : Sequence)
  | Choice (e : Choice)
  | Annot (e : Annot)
  | OpenContent (e : OpenContent)

end

/-- `lib.rs` `enum RedefineBody`. -/
inductive RedefineBody where
  | Annot (e : Annot)
  | SimpleType (e : SimpleType)
  | ComplexType (e : ComplexType)
  | Group (e : Group)
  | AttributeGroup (e : AttributeGroup)

/-- `lib.rs` `struct Redefine`. -/
structure Redefine where
  id : Option ID
  schema_location : AnyURI
  body : List RedefineBody

/-- `lib.rs` `enum SchemaBody` (the Rust `Element` case boxes its payload;
the box is immaterial here). -/
inductive SchemaBody where
  | Include (e : Include)
  | Import (e : Import)
  | Override
  | Redefine (e : Redefine)
  | Annot (e : Annot)
  | DefaultOpenContent (e : DefaultOpenContent)
  | SimpleType (e : SimpleType)
  | ComplexType (e : ComplexType)
  | Group (e : Group)
  | AttributeGroup (e : AttributeGroup)
  | Element (e : Element)
  | Attribute (e : Attribute)
  | Notation (e : Notation)

/-- `lib.rs` `struct Schema`: the document root. -/
structure Schema where
  id : Option ID
  xmlns : Option String
  attribute_form_default : Option FormChoice
  element_form_default : Option FormChoice
  block_default : Option Block
  final_default : Option (List Final)
  target_namespace : AnyURI
  version : Option XsdToken
  default_attributes : Option String
  xpath_default_namespace : Option AnyURI
  min_version : Option String
  xml_lang : Option String
  body : List SchemaBody

/-- `particles.rs` `enum Particle`: the polymorphic view over the particle
kinds. In Rust each case wraps a reference; here it holds the value. -/
inductive Particle where
  | Element (e : Element)
  | Choice (e : Choice)
  | Group (e : Group)
  | Sequence (e : Sequence)
  | Any (e : Any)

/-- `lib.rs` `enum SimpleTypeContent`: the result view of
`SimpleType::content`. In Rust each case wraps a reference; here it holds
the value. -/
inductive SimpleTypeContent where
  | Restriction (e : Restriction)
  | Union (e : Union)
  | List (e : XsdList)

/-!
Field projections for the single-constructor inductives of the mutual block
(Lean generates no projections for them automatically).
-/

/-- Projection: `Sequence.body`. -/
def Sequence.body : Sequence → List SequenceBody
  | .mk _ _ _ b => b

/-- Projection: `Sequence.max_occurs`. -/
def Sequence.max_occurs : Sequence → Option MaxOccurs
  | .mk _ _ m _ => m

/-- Projection: `All.id`. -/
def All.id : All → Option ID
  | .mk i _ _ _ => i

/-- Projection: `All.min_occurs`. -/
def All.min_occurs : All → Option Nat
  | .mk _ m _ _ => m

/-- Projection: `All.max_occurs`. -/
def All.max_occurs : All → Option Nat
  | .mk _ _ m _ => m

/-- Projection: `All.body`. -/
def All.body : All → List AllBody
  | .mk _ _ _ b => b

/-- Projection: `Group.body`. -/
def Group.body : Group → List GroupBody
  | .mk _ _ _ _ _ b => b

/-- Projection: `Choice.body`. -/
def Choice.body : Choice → List ChoiceBody
  | .mk _ _ _ b => b

/-- Projection: `Element.body`. -/
def Element.body : Element → List ElementBody
  | .mk _ _ _ _ _ _ _ _ _ _ _ _ _ _ b => b

/-- Projection: `SimpleType.body`. -/
def SimpleType.body : SimpleType → List SimpleTypeBody
  | .mk _ _ _ b => b

/-- Projection: `Union.body`. -/
def Union.body : Union → List UnionBody
  | .mk _ _ b => b

/-- Projection: `XsdList.body`. -/
def XsdList.body : XsdList → List XsdListBody
  | .mk _ _ b => b

/-- Projection: `Restriction.body`. -/
def Restriction.body : Restriction → List RestrictionBody
  | .mk _ _ b => b

/-- Projection: `Attribute.body`. -/
def Attribute.body : Attribute → List AttributeBody
  | .mk _ _ _ _ _ _ _ _ _ _ b => b

/-- Projection: `AttributeGroup.body`. -/
def AttributeGroup.body : AttributeGroup → List AttributeGroupBody
  | .mk _ _ _ b => b

/-- Projection: `ComplexType.body`. -/
def ComplexType.body : ComplexType → List ComplexTypeBody
  | .mk _ _ _ _ _ _ _ _ b => b

/-- Projection: `SimpleContent.body`. -/
def SimpleContent.body : SimpleContent → List ContentBody
  | .mk _ b => b

/-- Projection: `ComplexContent.body`. -/
def ComplexContent.body : ComplexContent → List ContentBody
  | .mk _ _ b => b

/-- Projection: `Extension.body`. -/
def Extension.body : Extension → List ExtensionBody
  | .mk _ _ b => b

/-!
The query layer. The Rust macros `element_from_body!` and
`elements_from_body!` expand, per accessor, to a loop over the container's
`body` pushing every child matching one variant. Here the variant test
(`if let Enum::Variant(e) = element`) is the projector argument `f`, and the
imperative loop is a left fold pushing to the end of the accumulator.
-/

/-- The loop body shared by both macro expansions: push the child onto the
accumulator when it matches the variant (`if let ... { elements.push(e) }`). -/
def pushStep {β α : Type} (f : β → Option α) (acc : List α) (b : β) : List α :=
  match f b with
  | some e => acc ++ [e]
  | none => acc

/-- `lib.rs` macro `element_from_body!`: collects every child matching the
variant, pops the last collected element, and returns it only when nothing
else was collected (`elements.pop()` then `elements.is_empty()`). -/
def element_from_body {β α : Type} (body : List β) (f : β → Option α) : Option α :=
  let elements := body.foldl (pushStep f) []
  let element := elements.getLast?
  if elements.dropLast.isEmpty then element else none

/-- `lib.rs` macro `elements_from_body!`: collects every child matching the
variant, in body order. -/
def elements_from_body {β α : Type} (body : List β) (f : β → Option α) : List α :=
  body.foldl (pushStep f) []

/-- Variant test of `SimpleTypeBody::Annotation`. -/
def SimpleTypeBody.annot? : SimpleTypeBody → Option Schematis.Annot
  | .Annot e => some e
  | _ => none

/-- Variant test of `UnionBody::Annotation`. -/
def UnionBody.annot? : UnionBody → Option Schematis.Annot
  | .Annot e => some e
  | _ => none

/-- Variant test of `UnionBody::SimpleType`. -/
def UnionBody.simple_type? : UnionBody → Option Schematis.SimpleType
  | .SimpleType e => some e
  | _ => none

/-- Variant test of `ListBody::Annotation`. -/
def XsdListBody.annot? : XsdListBody → Option Schematis.Annot
  | .Annot e => some e
  | _ => none

/-- Variant test of `ListBody::SimpleType`. -/
def XsdListBody.simple_type? : XsdListBody → Option Schematis.SimpleType
  | .SimpleType e => some e
  | _ => none

/-- Variant test of `RestrictionBody::Annotation`. -/
def RestrictionBody.annot? : RestrictionBody → Option Schematis.Annot
  | .Annot e => some e
  | _ => none

/-- Variant test of `RestrictionBody::SimpleType`. -/
def RestrictionBody.simple_type? : RestrictionBody → Option Schematis.SimpleType
  | .SimpleType e => some e
  | _ => none

/-- Variant test of `RestrictionBody::Assert`. -/
def RestrictionBody.assert? : RestrictionBody → Option Schematis.Assert
  | .Assert e => some e
  | _ => none

/-- Variant test of `AttributeBody::Annotation`. -/
def AttributeBody.annot? : AttributeBody → Option Schematis.Annot
  | .Annot e => some e
  | _ => none

/-- Variant test of `AttributeBody::SimpleType`. -/
def AttributeBody.simple_type? : AttributeBody → Option Schematis.SimpleType
  | .SimpleType e => some e
  | _ => none

/-- Variant test of `ComplexTypeBody::Annotation`. -/
def ComplexTypeBody.annot? : ComplexTypeBody → Option Schematis.Annot
  | .Annot e => some e
  | _ => none

/-- Variant test of `ComplexTypeBody::All`. -/
def ComplexTypeBody.all? : ComplexTypeBody → Option Schematis.All
  | .All e => some e
  | _ => none

/-- Variant test of `ComplexTypeBody::Assert`. -/
def ComplexTypeBody.assert? : ComplexTypeBody → Option Schematis.Assert
  | .Assert e => some e
  | _ => none

/-- Variant test of `ComplexTypeBody::Sequence`. -/
def ComplexTypeBody.sequence? : ComplexTypeBody → Option Schematis.Sequence
  | .Sequence e => some e
  | _ => none

/-- Variant test of `ComplexTypeBody::Attribute`. -/
def ComplexTypeBody.attribute? : ComplexTypeBody → Option Schematis.Attribute
  | .Attribute e => some e
  | _ => none

/-- Variant test of `ComplexTypeBody::AttributeGroup`. -/
def ComplexTypeBody.attribute_group? : ComplexTypeBody → Option Schematis.AttributeGroup
  | .AttributeGroup e => some e
  | _ => none

/-- Variant test of `ComplexTypeBody::AnyAttribute`. -/
def ComplexTypeBody.any_attribute? : ComplexTypeBody → Option Schematis.AnyAttribute
  | .AnyAttribute e => some e
  | _ => none

/-- Variant test of `ComplexTypeBody::Group`. -/
def ComplexTypeBody.group? : ComplexTypeBody → Option Schematis.Group
  | .Group e => some e
  | _ => none

/-- Variant test of `ComplexTypeBody::ComplexContent`. -/
def ComplexTypeBody.complex_content? : ComplexTypeBody → Option Schematis.ComplexContent
  | .ComplexContent e => some e
  | _ => none

/-- Variant test of `ComplexTypeBody::SimpleContent`. -/
def ComplexTypeBody.simple_content? : ComplexTypeBody → Option Schematis.SimpleContent
  | .SimpleContent e => some e
  | _ => none

/-- Variant test of `ComplexTypeBody::Choice`. -/
def ComplexTypeBody.choice? : ComplexTypeBody → Option Schematis.Choice
  | .Choice e => some e
  | _ => none

/-- Variant test of `SequenceBody::Annotation`. -/
def SequenceBody.annot? : SequenceBody → Option Schematis.Annot
  | .Annot e => some e
  | _ => none

/-- Variant test of `ChoiceBody::Annotation`. -/
def ChoiceBody.annot? : ChoiceBody → Option Schematis.Annot
  | .Annot e => some e
  | _ => none

/-- Variant test of `AllBody::Annotation`. -/
def AllBody.annot? : AllBody → Option Schematis.Annot
  | .Annot e => some e
  | _ => none

/-- Variant test of `SchemaBody::SimpleType`. -/
def SchemaBody.simple_type? : SchemaBody → Option Schematis.SimpleType
  | .SimpleType e => some e
  | _ => none

/-- Variant test of `SchemaBody::ComplexType`. -/
def SchemaBody.complex_type? : SchemaBody → Option Schematis.ComplexType
  | .ComplexType e => some e
  | _ => none

/-- Variant test of `SchemaBody::Annotation`. -/
def SchemaBody.annot? : SchemaBody → Option Schematis.Annot
  | .Annot e => some e
  | _ => none

/-- `SimpleType::annotation` (`element_from_body!(self, SimpleTypeBody::Annotation)`). -/
def SimpleType.annot (s : SimpleType) : Option Annot :=
  element_from_body s.body SimpleTypeBody.annot?

/-- `Union::annotation`. -/
def Union.annot (u : Union) : Option Annot :=
  element_from_body u.body UnionBody.annot?

/-- `Union::simple_types`. -/
def Union.simple_types (u : Union) : List SimpleType :=
  elements_from_body u.body UnionBody.simple_type?

/-- `List::annotation`. -/
def XsdList.annot (l : XsdList) : Option Annot :=
  element_from_body l.body XsdListBody.annot?

/-- `List::simple_types`. -/
def XsdList.simple_types (l : XsdList) : List SimpleType :=
  elements_from_body l.body XsdListBody.simple_type?

/-- `Restriction::annotation`. -/
def Restriction.annot (r : Restriction) : Option Annot :=
  element_from_body r.body RestrictionBody.annot?

/-- `Restriction::simple_type`. -/
def Restriction.simple_type (r : Restriction) : Option SimpleType :=
  element_from_body r.body RestrictionBody.simple_type?

/-- `Restriction::asserts`. -/
def Restriction.asserts (r : Restriction) : List Assert :=
  elements_from_body r.body RestrictionBody.assert?

/-- `Attribute::annotation`. -/
def Attribute.annot (a : Attribute) : Option Annot :=
  element_from_body a.body AttributeBody.annot?

/-- `Attribute::simple_type`. -/
def Attribute.simple_type (a : Attribute) : Option SimpleType :=
  element_from_body a.body AttributeBody.simple_type?

/-- `ComplexType::annotation`. -/
def ComplexType.annot (c : ComplexType) : Option Annot :=
  element_from_body c.body ComplexTypeBody.annot?

/-- `ComplexType::all`. -/
def ComplexType.all (c : ComplexType) : Option All :=
  element_from_body c.body ComplexTypeBody.all?

/-- `ComplexType::asserts`. -/
def ComplexType.asserts (c : ComplexType) : List Assert :=
  elements_from_body c.body ComplexTypeBody.assert?

/-- `ComplexType::sequence`. -/
def ComplexType.sequence (c : ComplexType) : Option Sequence :=
  element_from_body c.body ComplexTypeBody.sequence?

/-- `ComplexType::attributes`. -/
def ComplexType.attributes (c : ComplexType) : List Attribute :=
  elements_from_body c.body ComplexTypeBody.attribute?

/-- `ComplexType::attribute_groups`. -/
def ComplexType.attribute_groups (c : ComplexType) : List AttributeGroup :=
  elements_from_body c.body ComplexTypeBody.attribute_group?

/-- `ComplexType::any_attribute`. -/
def ComplexType.any_attribute (c : ComplexType) : Option AnyAttribute :=
  element_from_body c.body ComplexTypeBody.any_attribute?

/-- `ComplexType::group`. -/
def ComplexType.group (c : ComplexType) : Option Group :=
  element_from_body c.body ComplexTypeBody.group?

/-- `ComplexType::complex_content`. -/
def ComplexType.complex_content (c : ComplexType) : Option ComplexContent :=
  element_from_body c.body ComplexTypeBody.complex_content?

/-- `ComplexType::simple_content`. -/
def ComplexType.simple_content (c : ComplexType) : Option SimpleContent :=
  element_from_body c.body ComplexTypeBody.simple_content?

/-- `ComplexType::choice`. -/
def ComplexType.choice (c : ComplexType) : Option Choice :=
  element_from_body c.body ComplexTypeBody.choice?

/-- `Schema::simple_types`. -/
def Schema.simple_types (s : Schema) : List SimpleType :=
  elements_from_body s.body SchemaBody.simple_type?

/-- `Schema::complex_types`. -/
def Schema.complex_types (s : Schema) : List ComplexType :=
  elements_from_body s.body SchemaBody.complex_type?

/-- `Sequence::annotation`. -/
def Sequence.annot (s : Sequence) : Option Annot :=
  element_from_body s.body SequenceBody.annot?

/-- `Choice::annotation`. -/
def Choice.annot (c : Choice) : Option Annot :=
  element_from_body c.body ChoiceBody.annot?

/-- `All::annotation`. -/
def All.annot (a : All) : Option Annot :=
  element_from_body a.body AllBody.annot?

/-- `Any::annotation` (direct field read). -/
def Any.annot (a : Any) : Option Annot :=
  a.body

/-- The loop body of `SimpleType::content`: skips annotations and returns
`Ok` on the first restriction, union or list child; `Err` when the loop
finishes without one. The error string is the Rust literal. -/
def SimpleType.contentLoop : List SimpleTypeBody → Except String SimpleTypeContent
  | [] => Except.error "SimpleType has no valid content (restriction, union, or list)"
  | b :: rest =>
    match b with
    | .Annot _ => SimpleType.contentLoop rest
    | .Restriction e => Except.ok (SimpleTypeContent.Restriction e)
    | .Union e => Except.ok (SimpleTypeContent.Union e)
    | .List e => Except.ok (SimpleTypeContent.List e)

/-- `SimpleType::content`. -/
def SimpleType.content (s : SimpleType) : Except String SimpleTypeContent :=
  SimpleType.contentLoop s.body

/-- The match performed on each child by the loop of `Restriction::facets`,
arm for arm in source order, expressed as the push applied to the
accumulator. Note the source's `MinInclusive` arm pushes
`Facet::MinExclusive`. -/
def Restriction.facetStep (acc : List Facet) (element : RestrictionBody) : List Facet :=
  match element with
  | .Pattern e => acc ++ [Facet.Pattern e]
  | .Length e => acc ++ [Facet.Length e]
  | .Annot _ => acc
  | .WhiteSpace e => acc ++ [Facet.WhiteSpace e]
  | .SimpleType _ => acc
  | .AnyAttribute _ => acc
  | .MinInclusive e => acc ++ [Facet.MinExclusive e]
  | .MaxInclusive e => acc ++ [Facet.MaxInclusive e]
  | .MinExclusive e => acc ++ [Facet.MinExclusive e]
  | .MaxExclusive e => acc ++ [Facet.MaxExclusive e]
  | .MinLength e => acc ++ [Facet.MinLength e]
  | .MaxLength e => acc ++ [Facet.MaxLength e]
  | .FractionDigits e => acc ++ [Facet.FractionDigits e]
  | .TotalDigits e => acc ++ [Facet.TotalDigits e]
  | .Enumeration e => acc ++ [Facet.Enumeration e]
  | .Sequence _ => acc
  | .Attribute _ => acc
  | .AttributeGroup _ => acc
  | .Group _ => acc
  | .All _ => acc
  | .Choice _ => acc
  | .Assertion e => acc ++ [Facet.Assertion e]
  | .ExplicitTimezone e => acc ++ [Facet.ExplicitTimezone e]
  | .Assert _ => acc

/-- `Restriction::facets`. -/
def Restriction.facets (r : Restriction) : List Facet :=
  r.body.foldl Restriction.facetStep []

/-- The match performed on each child by the loop of `Sequence::items`,
arm for arm in source order. -/
def Sequence.itemStep (particles : List Particle) (element : SequenceBody) : List Particle :=
  match element with
  | .Any e => particles ++ [Particle.Any e]
  | .Annot _ => particles
  | .Element e => particles ++ [Particle.Element e]
  | .Group e => particles ++ [Particle.Group e]
  | .Sequence e => particles ++ [Particle.Sequence e]
  | .Choice e => particles ++ [Particle.Choice e]

/-- `Sequence::items`. -/
def Sequence.items (s : Sequence) : List Particle :=
  s.body.foldl Sequence.itemStep []

/-- The match performed on each child by the loop of `Choice::items`,
arm for arm in source order. -/
def Choice.itemStep (particles : List Particle) (element : ChoiceBody) : List Particle :=
  match element with
  | .Any e => particles ++ [Particle.Any e]
  | .Annot _ => particles
  | .Element e => particles ++ [Particle.Element e]
  | .Group e => particles ++ [Particle.Group e]
  | .Sequence e => particles ++ [Particle.Sequence e]
  | .Choice e => particles ++ [Particle.Choice e]

/-- `Choice::items`. -/
def Choice.items (c : Choice) : List Particle :=
  c.body.foldl Choice.itemStep []

/-- The match performed on each child by the loop of `All::items`,
arm for arm in source order. -/
def All.itemStep (particles : List Particle) (element : AllBody) : List Particle :=
  match element with
  | .Annot _ => particles
  | .Element e => particles ++ [Particle.Element e]
  | .Any e => particles ++ [Particle.Any e]
  | .Group e => particles ++ [Particle.Group e]

/-- `All::items`. -/
def All.items (a : All) : List Particle :=
  a.body.foldl All.itemStep []

/-!
Occurrence-attribute parsing. The node construction layer is the serde
derive declared on each struct; the behaviour below is determined by those
declarations in `src/particles.rs` (the `untagged` attribute and variant
order on `MaxOccurs`, and the `Option<u32>` field types on `All`) together
with Rust's `u32` lexical grammar.
-/

/-- Numeric value of a list of ASCII digit characters, most significant
first. -/
def digitsVal (cs : List Char) : Nat :=
  cs.foldl (fun acc c => 10 * acc + (c.toNat - 48)) 0

/-- Modelled from Rust's `u32` lexical parsing (`str::parse::<u32>`), the
declared numeric type of occurrence attributes: an optional leading `+`,
then one or more ASCII digits, with value in the `u32` range; anything else
fails. -/
def parseU32 (s : String) : Option Nat :=
  let ds := match s.data with
    | '+' :: rest => rest
    | cs => cs
  if ds ≠ [] ∧ ds.all Char.isDigit = true ∧ digitsVal ds < 2 ^ 32 then
    some (digitsVal ds)
  else
    none

/-- Modelled from the serde `untagged` derive on `MaxOccurs`
(`src/particles.rs`) as deserialized through quick-xml
(`Schema::from_reader`): an untagged enum is deserialized by buffering the
input via `deserialize_any`, quick-xml reports an attribute value as a
string, and serde's buffered content never coerces a string into an
integer, so the `Bounded(u32)` variant cannot match an attribute value;
`Unbounded(String)` accepts any string. Every `maxOccurs` attribute value
therefore deserializes, without failure, as `Unbounded` of the raw text. -/
def MaxOccurs.parse (s : String) : Option MaxOccurs :=
  some (MaxOccurs.Unbounded s)

/-- A present attribute value must parse as `u32`; an absent attribute is
`none`; a present value that fails to parse is a construction failure. -/
def parseOptU32 : Option String → Option (Option Nat)
  | none => some none
  | some s => (parseU32 s).map some

/-- Modelled from the serde derive on `All` (`src/particles.rs`): both
`minOccurs` and `maxOccurs` are declared `Option<u32>` (for `All`,
`maxOccurs` is NOT of the `MaxOccurs` sum type), so each present occurrence
attribute must be `u32`-lexical or construction of the node fails; parsed
values and the body children are stored exactly as given, with no range
check. -/
def All.fromOccursAttrs (id : Option ID) (minA maxA : Option String)
    (body : List AllBody) : Option All :=
  match parseOptU32 minA, parseOptU32 maxA with
  | some mn, some mx => some (All.mk id mn mx body)
  | _, _ => none

/-!
Specification-side helpers: per-variant projections used to state what the
extraction loops compute. These are written from the spec's description of
the intended child-to-case mapping and compared with the source-derived
loops by the theorems below.
-/

/-- Specification: the content-child mapping of `SimpleType::content`
(restriction, union or list; an annotation is not content). -/
def SimpleTypeBody.content? : SimpleTypeBody → Option SimpleTypeContent
  | .Annot _ => none
  | .Restriction e => some (SimpleTypeContent.Restriction e)
  | .Union e => some (SimpleTypeContent.Union e)
  | .List e => some (SimpleTypeContent.List e)

/-- Whether a `SequenceBody` child is an annotation. -/
def SequenceBody.isAnnot : SequenceBody → Bool
  | .Annot _ => true
  | _ => false

/-- Specification: the child-to-`Particle` mapping for sequence children
(each structural child to its `Particle` case, annotation to nothing). -/
def SequenceBody.particle? : SequenceBody → Option Particle
  | .Any e => some (Particle.Any e)
  | .Annot _ => none
  | .Element e => some (Particle.Element e)
  | .Group e => some (Particle.Group e)
  | .Sequence e => some (Particle.Sequence e)
  | .Choice e => some (Particle.Choice e)

/-- Whether a `ChoiceBody` child is an annotation. -/
def ChoiceBody.isAnnot : ChoiceBody → Bool
  | .Annot _ => true
  | _ => false

/-- Specification: the child-to-`Particle` mapping for choice children. -/
def ChoiceBody.particle? : ChoiceBody → Option Particle
  | .Any e => some (Particle.Any e)
  | .Annot _ => none
  | .Element e => some (Particle.Element e)
  | .Group e => some (Particle.Group e)
  | .Sequence e => some (Particle.Sequence e)
  | .Choice e => some (Particle.Choice e)

/-- Whether an `AllBody` child is an annotation. -/
def AllBody.isAnnot : AllBody → Bool
  | .Annot _ => true
  | _ => false

/-- Specification: the child-to-`Particle` mapping for all-group children. -/
def AllBody.particle? : AllBody → Option Particle
  | .Annot _ => none
  | .Element e => some (Particle.Element e)
  | .Any e => some (Particle.Any e)
  | .Group e => some (Particle.Group e)

/-!
Concrete fixture nodes, used by the closed witness and counterexample
theorems below.
-/

/-- An empty annotation node. -/
def annotA : Annot := { namespace_ := none, body := [] }

/-- A boundary-facet value node (as a `minInclusive` child would carry). -/
def bf0 : BoundaryFacet := { id := none, fixed := none, value := "1", body := none }

/-- A restriction whose body is a single `minInclusive` facet child. -/
def restrMinIncl : Restriction :=
  Restriction.mk none (some "xs:int") [RestrictionBody.MinInclusive bf0]

/-- An empty restriction node. -/
def restr0 : Restriction := Restriction.mk none none []

/-- An empty sequence particle. -/
def seq0 : Sequence := Sequence.mk none none none []

/-- An empty choice particle. -/
def ch0 : Choice := Choice.mk none none none []

/-- A complex type whose body holds both a sequence child and a choice
child. -/
def ctBoth : ComplexType :=
  ComplexType.mk none none none none none none none none
    [ComplexTypeBody.Sequence seq0, ComplexTypeBody.Choice ch0]

/-- A complex type whose body holds exactly one sequence child. -/
def ctSeqOnly : ComplexType :=
  ComplexType.mk none none none none none none none none
    [ComplexTypeBody.Sequence seq0]

/-- A simple type whose body is an annotation followed by a restriction. -/
def st1 : SimpleType :=
  SimpleType.mk none none none
    [SimpleTypeBody.Annot annotA, SimpleTypeBody.Restriction restr0]

/-!
Helper lemmas about the two extraction combinators.
-/

/-- The collecting loop shared by both macros is `filterMap` appended to the
incoming accumulator. -/
theorem foldl_push_eq {β α : Type} (f : β → Option α) :
    ∀ (body : List β) (acc : List α),
      body.foldl (pushStep f) acc = acc ++ body.filterMap f
  | [], acc => by simp
  | b :: rest, acc => by
    cases hb : f b with
    | none =>
      simp only [List.foldl_cons, pushStep, hb, List.filterMap_cons,
        foldl_push_eq f rest acc]
    | some e =>
      simp only [List.foldl_cons, pushStep, hb, List.filterMap_cons,
        foldl_push_eq f rest (acc ++ [e]), List.append_assoc, List.singleton_append]

/-- `elements_from_body` is the in-order projection of the matching
children. -/
theorem elements_from_body_eq_filterMap {β α : Type} (body : List β) (f : β → Option α) :
    elements_from_body body f = body.filterMap f := by
  have h := foldl_push_eq f body []
  simpa [elements_from_body] using h

/-- `element_from_body` succeeds exactly on a singleton list of matches. -/
theorem element_from_body_eq {β α : Type} (body : List β) (f : β → Option α) :
    element_from_body body f =
      match body.filterMap f with
      | [a] => some a
      | _ => none := by
  unfold element_from_body
  rw [foldl_push_eq f body []]
  cases hfm : body.filterMap f with
  | nil => simp
  | cons x t =>
    cases t with
    | nil => simp
    | cons y t2 => simp [List.dropLast]

/-- Singleton extraction returns a value exactly when the match list is that
singleton. -/
theorem element_from_body_eq_some_iff {β α : Type} (body : List β) (f : β → Option α)
    (a : α) :
    element_from_body body f = some a ↔ body.filterMap f = [a] := by
  rw [element_from_body_eq]
  cases hfm : body.filterMap f with
  | nil => simp
  | cons x t =>
    cases t with
    | nil => simp
    | cons y t2 => simp

/-- The number of projected children equals the number of matching
children. -/
theorem length_filterMap_eq_countP {β α : Type} (l : List β) (f : β → Option α) :
    (l.filterMap f).length = l.countP (fun b => (f b).isSome) := by
  induction l with
  | nil => simp
  | cons b t ih => cases hb : f b <;> simp [List.filterMap_cons, hb, List.countP_cons, ih]

/-- Positionally, the projection of a list is the projection of its filtered
sublist: the K-th projected value comes from the K-th matching child. -/
theorem getElem?_filterMap_filter {β α : Type} (l : List β) (f : β → Option α)
    (p : β → Bool) (hp : ∀ b, (f b).isSome = p b) :
    ∀ k : Nat, (l.filterMap f)[k]? = ((l.filter p)[k]?).bind f := by
  induction l with
  | nil => intro k; simp
  | cons b t ih =>
    intro k
    cases hb : f b with
    | none =>
      have hpb : p b = false := by rw [← hp b, hb]; rfl
      simp [List.filterMap_cons, hb, List.filter_cons, hpb, ih]
    | some a =>
      have hpb : p b = true := by rw [← hp b, hb]; rfl
      cases k with
      | zero => simp [List.filterMap_cons, hb, List.filter_cons, hpb]
      | succ k => simp [List.filterMap_cons, hb, List.filter_cons, hpb, ih]

/-- A `SimpleTypeBody` child maps to no content exactly when it is an
annotation child. -/
theorem simpleTypeBody_content?_eq_none_iff (b : SimpleTypeBody) :
    SimpleTypeBody.content? b = none ↔ ∃ a, b = SimpleTypeBody.Annot a := by
  cases b <;> simp [SimpleTypeBody.content?]

/-- The loop of `SimpleType::content` fails exactly when no child projects
to content. -/
theorem contentLoop_error_iff :
    ∀ l : List SimpleTypeBody,
      SimpleType.contentLoop l
          = Except.error "SimpleType has no valid content (restriction, union, or list)"
        ↔ l.filterMap SimpleTypeBody.content? = []
  | [] => by simp [SimpleType.contentLoop]
  | .Annot a :: rest => by
    simp [SimpleType.contentLoop, SimpleTypeBody.content?, List.filterMap_cons,
      contentLoop_error_iff rest]
  | .Restriction e :: rest => by
    simp [SimpleType.contentLoop, SimpleTypeBody.content?, List.filterMap_cons]
  | .Union e :: rest => by
    simp [SimpleType.contentLoop, SimpleTypeBody.content?, List.filterMap_cons]
  | .List e :: rest => by
    simp [SimpleType.contentLoop, SimpleTypeBody.content?, List.filterMap_cons]

/-- The loop of `SimpleType::content` succeeds exactly with the first
content projection of the body. -/
theorem contentLoop_ok_iff :
    ∀ (l : List SimpleTypeBody) (c : SimpleTypeContent),
      SimpleType.contentLoop l = Except.ok c
        ↔ (l.filterMap SimpleTypeBody.content?).head? = some c
  | [], c => by simp [SimpleType.contentLoop]
  | .Annot a :: rest, c => by
    simp [SimpleType.contentLoop, SimpleTypeBody.content?, List.filterMap_cons,
      contentLoop_ok_iff rest c]
  | .Restriction e :: rest, c => by
    simp [SimpleType.contentLoop, SimpleTypeBody.content?, List.filterMap_cons, eq_comm]
  | .Union e :: rest, c => by
    simp [SimpleType.contentLoop, SimpleTypeBody.content?, List.filterMap_cons, eq_comm]
  | .List e :: rest, c => by
    simp [SimpleType.contentLoop, SimpleTypeBody.content?, List.filterMap_cons, eq_comm]

/-- C2: singleton extraction (`element_from_body!`, the expansion behind
`ComplexType::annotation`, `ComplexType::sequence`, `SimpleType::annotation`
and every other singleton accessor): for every body and variant projector,
zero matching children give `none`; exactly one gives `some` of that child;
two or more also give `none` (ambiguity collapses to absence). -/
theorem singleton_extraction_trichotomy {β α : Type} (body : List β) (f : β → Option α) :
    (body.filterMap f = [] → element_from_body body f = none) ∧
    (∀ a, body.filterMap f = [a] → element_from_body body f = some a) ∧
    (∀ a b l, body.filterMap f = a :: b :: l → element_from_body body f = none) := by
  refine ⟨fun h => ?_, fun a h => ?_, fun a b l h => ?_⟩ <;> rw [element_from_body_eq, h]

/-- Witness for the singleton-extraction trichotomy at concrete bodies with
zero, one and two matching children. -/
theorem singleton_extraction_trichotomy_witness :
    element_from_body ([] : List SimpleTypeBody) SimpleTypeBody.annot? = none ∧
    element_from_body [SimpleTypeBody.Annot annotA] SimpleTypeBody.annot? = some annotA ∧
    element_from_body [SimpleTypeBody.Annot annotA, SimpleTypeBody.Annot annotA]
      SimpleTypeBody.annot? = none :=
  ⟨(singleton_extraction_trichotomy _ _).1 rfl,
   (singleton_extraction_trichotomy _ _).2.1 annotA rfl,
   (singleton_extraction_trichotomy _ _).2.2 annotA annotA [] rfl⟩

/-- C6: multi extraction (`elements_from_body!`): for every body and variant
projector the result is the in-order projection of the matching children,
its length is the number of matching children, and no match gives the empty
list; `Schema::simple_types`, `ComplexType::attributes` and
`Restriction::asserts` are instances of the combinator. -/
theorem multi_extraction_spec :
    (∀ (β α : Type) (body : List β) (f : β → Option α),
      elements_from_body body f = body.filterMap f ∧
      (elements_from_body body f).length = body.countP (fun b => (f b).isSome) ∧
      (body.countP (fun b => (f b).isSome) = 0 → elements_from_body body f = [])) ∧
    (∀ s : Schema, Schema.simple_types s = elements_from_body s.body SchemaBody.simple_type?) ∧
    (∀ c : ComplexType,
      ComplexType.attributes c = elements_from_body c.body ComplexTypeBody.attribute?) ∧
    (∀ r : Restriction,
      Restriction.asserts r = elements_from_body r.body RestrictionBody.assert?) := by
  refine ⟨fun β α body f => ⟨elements_from_body_eq_filterMap body f, ?_, fun h => ?_⟩,
    fun s => rfl, fun c => rfl, fun r => rfl⟩
  · rw [elements_from_body_eq_filterMap]
    exact length_filterMap_eq_countP body f
  · rw [elements_from_body_eq_filterMap]
    exact List.length_eq_zero.mp (by rw [length_filterMap_eq_countP body f, h])

/-- Witness for multi extraction: with no matching child the result is the
empty list. -/
theorem multi_extraction_spec_witness :
    elements_from_body ([] : List SchemaBody) SchemaBody.simple_type? = [] :=
  (multi_extraction_spec.1 SchemaBody SimpleType [] SchemaBody.simple_type?).2.2 rfl

/-- C4: `SimpleType::content` returns the explicit error exactly when every
body child is an annotation (in particular when the body is empty), and
returns `Ok` of the variant for the first non-annotation content child in
body order; the failure is an `Err` result, not an absent `Option`. -/
theorem simpleType_content_spec (s : SimpleType) :
    (SimpleType.content s
        = Except.error "SimpleType has no valid content (restriction, union, or list)"
      ↔ s.body.filterMap SimpleTypeBody.content? = []) ∧
    (∀ c, SimpleType.content s = Except.ok c
      ↔ (s.body.filterMap SimpleTypeBody.content?).head? = some c) ∧
    (s.body.filterMap SimpleTypeBody.content? = []
      ↔ ∀ b ∈ s.body, ∃ a, b = SimpleTypeBody.Annot a) := by
  refine ⟨contentLoop_error_iff s.body, fun c => contentLoop_ok_iff s.body c, ?_⟩
  rw [List.filterMap_eq_nil_iff]
  exact forall₂_congr fun b _ => simpleTypeBody_content?_eq_none_iff b

/-- Witness for `SimpleType::content`: an annotation followed by a
restriction yields `Ok` of the restriction. -/
theorem simpleType_content_spec_witness :
    SimpleType.content st1 = Except.ok (SimpleTypeContent.Restriction restr0) :=
  ((simpleType_content_spec st1).2.1 (SimpleTypeContent.Restriction restr0)).mpr rfl

/-- C1 (failing input): on a restriction whose body is a single
`minInclusive` child, `Restriction::facets` yields `Facet::MinExclusive` —
the `MinInclusive` arm of its loop pushes the wrong `Facet` case — so the
claimed mapping to `Facet::MinInclusive` fails. -/
theorem facets_minInclusive_slip :
    Restriction.facets restrMinIncl = [Facet.MinExclusive bf0] ∧
    Restriction.facets restrMinIncl ≠ [Facet.MinInclusive bf0] := by
  refine ⟨rfl, ?_⟩
  intro h
  rw [show Restriction.facets restrMinIncl = [Facet.MinExclusive bf0] from rfl] at h
  simp at h

/-- C5 (counterexample): a complex-type body holding one sequence child and
one choice child makes both `sequence()` and `choice()` return a value, so
the content accessors do not enforce cross-kind mutual exclusivity. -/
theorem complexType_exclusivity_fails :
    (ComplexType.sequence ctBoth).isSome = true ∧
    (ComplexType.choice ctBoth).isSome = true :=
  ⟨rfl, rfl⟩

/-- C5 (amended): each content accessor of `ComplexType` enforces per-kind
cardinality at read time — it returns a value exactly when its own kind
occurs exactly once in the body — but nothing relates different kinds. -/
theorem complexType_content_accessors_per_kind (c : ComplexType) :
    (∀ x, ComplexType.all c = some x ↔ c.body.filterMap ComplexTypeBody.all? = [x]) ∧
    (∀ x, ComplexType.sequence c = some x
      ↔ c.body.filterMap ComplexTypeBody.sequence? = [x]) ∧
    (∀ x, ComplexType.choice c = some x ↔ c.body.filterMap ComplexTypeBody.choice? = [x]) ∧
    (∀ x, ComplexType.group c = some x ↔ c.body.filterMap ComplexTypeBody.group? = [x]) ∧
    (∀ x, ComplexType.complex_content c = some x
      ↔ c.body.filterMap ComplexTypeBody.complex_content? = [x]) ∧
    (∀ x, ComplexType.simple_content c = some x
      ↔ c.body.filterMap ComplexTypeBody.simple_content? = [x]) :=
  ⟨fun x => element_from_body_eq_some_iff _ _ x,
   fun x => element_from_body_eq_some_iff _ _ x,
   fun x => element_from_body_eq_some_iff _ _ x,
   fun x => element_from_body_eq_some_iff _ _ x,
   fun x => element_from_body_eq_some_iff _ _ x,
   fun x => element_from_body_eq_some_iff _ _ x⟩

/-- Witness for the per-kind cardinality of the content accessors: a body
with exactly one sequence child yields it. -/
theorem complexType_content_accessors_per_kind_witness :
    ComplexType.sequence ctSeqOnly = some seq0 :=
  ((complexType_content_accessors_per_kind ctSeqOnly).2.1 seq0).mpr rfl

/-- C3 (counterexample): a non-negative integer literal does not yield
`Bounded`, and a negative value is not rejected: both deserialize as
`Unbounded` carrying the raw attribute string. -/
theorem maxOccurs_parse_counterexample :
    MaxOccurs.parse "5" = some (MaxOccurs.Unbounded "5") ∧
    MaxOccurs.parse "5" ≠ some (MaxOccurs.Bounded 5) ∧
    MaxOccurs.parse "-1" = some (MaxOccurs.Unbounded "-1") ∧
    MaxOccurs.parse "-1" ≠ none := by
  refine ⟨rfl, by decide, rfl, by decide⟩

/-- C3 (amended): deserializing a `maxOccurs` attribute value never fails
and never produces `Bounded`: every value — the `unbounded` token, a numeric
literal, or anything else — is accepted as `Unbounded` carrying the raw
attribute text. -/
theorem maxOccurs_parse_spec :
    MaxOccurs.parse "unbounded" = some (MaxOccurs.Unbounded "unbounded") ∧
    (∀ s, MaxOccurs.parse s = some (MaxOccurs.Unbounded s)) ∧
    (∀ s, MaxOccurs.parse s ≠ none) ∧
    (∀ s n, MaxOccurs.parse s ≠ some (MaxOccurs.Bounded n)) := by
  refine ⟨rfl, fun s => rfl, fun s h => ?_, fun s n h => ?_⟩ <;>
    simp [MaxOccurs.parse] at h

/-- C9 (counterexample): `All`'s `maxOccurs` attribute is a plain `u32`, so
the `unbounded` sentinel fails construction of an `All` node instead of
being stored. -/
theorem all_maxOccurs_unbounded_fails :
    All.fromOccursAttrs none none (some "unbounded") [] = none := rfl

/-- C9 (amended): construction of `All` applies no range check to the
occurrence bounds: any `u32`-lexical values (including values greater
than 1) are stored exactly as declared. -/
theorem all_occurs_stored_as_declared
    (i : Option ID) (sMin sMax : String) (nMin nMax : Nat) (body : List AllBody)
    (hMin : parseU32 sMin = some nMin) (hMax : parseU32 sMax = some nMax) :
    All.fromOccursAttrs i (some sMin) (some sMax) body
      = some (All.mk i (some nMin) (some nMax) body) := by
  simp [All.fromOccursAttrs, parseOptU32, hMin, hMax]

/-- Witness: `minOccurs="2"` and `maxOccurs="7"` are outside the grammar's
`{0,1}` but are stored verbatim. -/
theorem all_occurs_stored_as_declared_witness :
    All.fromOccursAttrs none (some "2") (some "7") []
      = some (All.mk none (some 2) (some 7) []) :=
  all_occurs_stored_as_declared none "2" "7" 2 7 [] (by decide) (by decide)

/-- The loop step of `Sequence::items` pushes exactly the specification's
particle projection. -/
theorem sequence_itemStep_eq :
    Sequence.itemStep = pushStep SequenceBody.particle? := by
  funext acc b
  cases b <;> rfl

/-- `Sequence::items` is the in-order particle projection of the body. -/
theorem sequence_items_eq_filterMap (s : Sequence) :
    Sequence.items s = s.body.filterMap SequenceBody.particle? := by
  show s.body.foldl Sequence.itemStep [] = _
  rw [sequence_itemStep_eq]
  simpa using foldl_push_eq SequenceBody.particle? s.body []

/-- A sequence child projects to a particle exactly when it is not an
annotation. -/
theorem sequenceBody_particle?_isSome (b : SequenceBody) :
    (SequenceBody.particle? b).isSome = ! SequenceBody.isAnnot b := by
  cases b <;> rfl

/-- The loop step of `Choice::items` pushes exactly the specification's
particle projection. -/
theorem choice_itemStep_eq :
    Choice.itemStep = pushStep ChoiceBody.particle? := by
  funext acc b
  cases b <;> rfl

/-- `Choice::items` is the in-order particle projection of the body. -/
theorem choice_items_eq_filterMap (c : Choice) :
    Choice.items c = c.body.filterMap ChoiceBody.particle? := by
  show c.body.foldl Choice.itemStep [] = _
  rw [choice_itemStep_eq]
  simpa using foldl_push_eq ChoiceBody.particle? c.body []

/-- A choice child projects to a particle exactly when it is not an
annotation. -/
theorem choiceBody_particle?_isSome (b : ChoiceBody) :
    (ChoiceBody.particle? b).isSome = ! ChoiceBody.isAnnot b := by
  cases b <;> rfl

/-- C7: for every `Sequence` and every `Choice`, `items()` projects the body
onto particles in source order: the result is the particle projection of the
body, its length is the number of non-annotation children, and the K-th
returned particle is the particle case of the K-th non-annotation child. -/
theorem seq_choice_items_spec :
    (∀ s : Sequence,
      Sequence.items s = s.body.filterMap SequenceBody.particle? ∧
      (Sequence.items s).length = s.body.countP (fun b => ! SequenceBody.isAnnot b) ∧
      ∀ k : Nat, (Sequence.items s)[k]?
        = ((s.body.filter (fun b => ! SequenceBody.isAnnot b))[k]?).bind
            SequenceBody.particle?) ∧
    (∀ c : Choice,
      Choice.items c = c.body.filterMap ChoiceBody.particle? ∧
      (Choice.items c).length = c.body.countP (fun b => ! ChoiceBody.isAnnot b) ∧
      ∀ k : Nat, (Choice.items c)[k]?
        = ((c.body.filter (fun b => ! ChoiceBody.isAnnot b))[k]?).bind
            ChoiceBody.particle?) := by
  constructor
  · intro s
    refine ⟨sequence_items_eq_filterMap s, ?_, fun k => ?_⟩
    · rw [sequence_items_eq_filterMap, length_filterMap_eq_countP]
      exact List.countP_congr fun b _ => by rw [sequenceBody_particle?_isSome]
    · rw [sequence_items_eq_filterMap]
      exact getElem?_filterMap_filter s.body SequenceBody.particle? _
        sequenceBody_particle?_isSome k
  · intro c
    refine ⟨choice_items_eq_filterMap c, ?_, fun k => ?_⟩
    · rw [choice_items_eq_filterMap, length_filterMap_eq_countP]
      exact List.countP_congr fun b _ => by rw [choiceBody_particle?_isSome]
    · rw [choice_items_eq_filterMap]
      exact getElem?_filterMap_filter c.body ChoiceBody.particle? _
        choiceBody_particle?_isSome k

/-- The loop step of `All::items` pushes exactly the specification's
particle projection. -/
theorem all_itemStep_eq :
    All.itemStep = pushStep AllBody.particle? := by
  funext acc b
  cases b <;> rfl

/-- `All::items` is the in-order particle projection of the body. -/
theorem all_items_eq_filterMap (a : All) :
    All.items a = a.body.filterMap AllBody.particle? := by
  show a.body.foldl All.itemStep [] = _
  rw [all_itemStep_eq]
  simpa using foldl_push_eq AllBody.particle? a.body []

/-- An all-group child projects to a particle exactly when it is not an
annotation. -/
theorem allBody_particle?_isSome (b : AllBody) :
    (AllBody.particle? b).isSome = ! AllBody.isAnnot b := by
  cases b <;> rfl

/-- C10: `All::items` preserves body order: the result is the particle
projection of the body, one particle per non-annotation child (element,
wildcard or group), and the K-th returned particle is the particle case of
the K-th non-annotation child in body order. -/
theorem all_items_spec (a : All) :
    All.items a = a.body.filterMap AllBody.particle? ∧
    (All.items a).length = a.body.countP (fun b => ! AllBody.isAnnot b) ∧
    ∀ k : Nat, (All.items a)[k]?
      = ((a.body.filter (fun b => ! AllBody.isAnnot b))[k]?).bind AllBody.particle? := by
  refine ⟨all_items_eq_filterMap a, ?_, fun k => ?_⟩
  · rw [all_items_eq_filterMap, length_filterMap_eq_countP]
    exact List.countP_congr fun b _ => by rw [allBody_particle?_isSome]
  · rw [all_items_eq_filterMap]
    exact getElem?_filterMap_filter a.body AllBody.particle? _ allBody_particle?_isSome k

end Schematis
